import Mathlib

/- Shallow embedding of the triggerware python client (src/triggerware):
   the JSON-RPC transport in jrpc.py (message routing, framing loop,
   request-id allocation, reply correlation, close semantics), the result
   cursor in result_set.py, the subscription state machine in
   subscriptions.py, and the error-wrapping sites in queries.py and
   triggerware_client.py. -/

namespace Tw

/-- JSON atoms appearing in message fields. -/
inductive JAtom where
  | null
  | jbool (b : Bool)
  | num (n : Int)
  | str (s : String)
deriving DecidableEq, Repr

/-- JSON values used for params, results and rows (atoms and arrays of atoms). -/
inductive JValue where
  | atom (a : JAtom)
  | arr (xs : List JAtom)
deriving DecidableEq, Repr

/-- A decoded JSON-RPC message object. A `none` field models an absent key
(the `"id" in obj` style tests of jrpc.py); `error` holds (code, message). -/
structure JMsg where
  jsonrpc : Option String := none
  id : Option Int := none
  method : Option String := none
  params : Option JValue := none
  result : Option JValue := none
  error : Option (Int × String) := none
deriving DecidableEq, Repr

/-- JsonRpcMessageHandler (jrpc.py lines 11-27): an execute callback returning
the response object that the read loop sends back verbatim, and a notify
callback whose observable outcome we record as a value. -/
structure JsonRpcMessageHandler where
  execute : JValue → JMsg
  notify : JValue → JValue

/-- Observable effects of the read loop routing one message. -/
inductive Event where
  | sent (m : JMsg)
  | storedReply (i : Int)
  | notified (v : JValue)
deriving DecidableEq, Repr

/-- Lookup in an association list, modelling python dict lookup. -/
def lookupA {κ β : Type} [DecidableEq κ] : List (κ × β) → κ → Option β
  | [], _ => none
  | p :: rest, k => if p.1 = k then some p.2 else lookupA rest k

/-- Remove a key, modelling python `del d[k]` / `d.pop(k)`. -/
def removeA {κ β : Type} [DecidableEq κ] : List (κ × β) → κ → List (κ × β)
  | [], _ => []
  | p :: rest, k => if p.1 = k then removeA rest k else p :: removeA rest k

/-- Overwriting insert, modelling python `d[k] = v`. -/
def insertA {κ β : Type} [DecidableEq κ] (l : List (κ × β)) (k : κ) (v : β) :
    List (κ × β) :=
  (k, v) :: removeA l k

/-- Python `bytes.isspace` on the single-byte reads of the whitespace skip
(jrpc.py line 161). -/
def pyIsSpace (c : Char) : Bool :=
  c = ' ' || c = '\t' || c = '\n' || c = '\r' || c = '\x0b' || c = '\x0c'

/-- Number of leading whitespace bytes skipped by jrpc.py lines 160-164. -/
def leadingWs : List Char → Nat
  | [] => 0
  | c :: rest => if pyIsSpace c then leadingWs rest + 1 else 0

/-- State of one JsonRpcClient as seen by the read loop (jrpc.py lines 30-44):
the byte buffer, the dispatch table `methods`, the pending-reply table
`incoming`, and the `closed` flag; `events` records observable outputs. -/
structure LoopState where
  buffer : List Char
  methods : List (String × JsonRpcMessageHandler)
  incoming : List (Int × JMsg)
  closed : Bool
  events : List Event

/-- The method-not-found error response built at jrpc.py lines 182-189. -/
def methodNotFoundResponse (i : Int) (name : String) : JMsg :=
  { jsonrpc := some ("2.0"), id := some i,
    error := some (-32601, ("Method ") ++ name ++ (" not found")) }

/-- Routing of one decoded message, jrpc.py lines 177-199. `none` models an
exception escaping to the outer handler (the KeyError raised by
`obj["params"]` when a registered handler is invoked without params), which
closes the transport. Replies are stored in `incoming` keyed by the
message's own id (line 193). -/
def routeMsg (s : LoopState) (m : JMsg) : Option LoopState :=
  match m.id with
  | some i =>
    match m.method with
    | some name =>
      match lookupA s.methods name with
      | some h =>
        match m.params with
        | some p => some { s with events := s.events ++ [.sent (h.execute p)] }
        | none => none
      | none =>
        some { s with
               events := s.events ++ [.sent (methodNotFoundResponse i name)] }
    | none =>
      some { s with incoming := insertA s.incoming i m,
                    events := s.events ++ [.storedReply i] }
  | none =>
    match m.method with
    | some name =>
      match lookupA s.methods name with
      | some h =>
        match m.params with
        | some p => some { s with events := s.events ++ [.notified (h.notify p)] }
        | none => none
      | none => some s
    | none => some s

/-- Result of one iteration of the inner decode loop. -/
inductive StepRes where
  | stop (s : LoopState)
  | cont (s : LoopState)

/-- One iteration of the inner decode loop of jrpc.py lines 157-202,
parameterized by the decoder (`json.JSONDecoder.raw_decode`, which returns
the decoded value and its exclusive end offset, or fails). The loop skips
leading whitespace, decodes from there, checks the protocol version (a
mismatch or absent field raises, which the outer handler turns into a close),
routes the message, and keeps `buffer[pos+1:]` of the whole buffer
(line 175). A decode failure breaks out with the buffer unchanged. -/
def processOnce (decode : List Char → Option (JMsg × Nat)) (s : LoopState) :
    StepRes :=
  if s.closed then .stop s
  else
    let w := leadingWs s.buffer
    match decode (s.buffer.drop w) with
    | none => .stop s
    | some (m, pos) =>
      if m.jsonrpc = some ("2.0") then
        match routeMsg s m with
        | some s1 => .cont { s1 with buffer := s.buffer.drop (pos + 1) }
        | none => .stop { s with closed := true }
      else .stop { s with closed := true }

/-- Fueled iteration of the inner decode loop. -/
def processAllFuel (decode : List Char → Option (JMsg × Nat)) :
    Nat → LoopState → LoopState
  | 0, s => s
  | f + 1, s =>
    match processOnce decode s with
    | .stop s1 => s1
    | .cont s1 => processAllFuel decode f s1

/-- The inner decode loop run to completion; each successful decode consumes
at least one byte, so the buffer length bounds the number of iterations. -/
def processAll (decode : List Char → Option (JMsg × Nat)) (s : LoopState) :
    LoopState :=
  processAllFuel decode (s.buffer.length + 1) s

/-- JsonRpcClient.close (jrpc.py lines 223-229): mark closed. -/
def close (s : LoopState) : LoopState :=
  { s with closed := true }

/-- One pass of the outer read loop after a socket read (jrpc.py lines
145-202): a zero-length read closes the transport, otherwise the data is
appended to the buffer and the inner decode loop runs. -/
def feedData (decode : List Char → Option (JMsg × Nat)) (s : LoopState)
    (data : List Char) : LoopState :=
  if s.closed then s
  else if data = [] then close s
  else processAll decode { s with buffer := s.buffer ++ data }

/-- JsonRpcClient.next_id (jrpc.py lines 212-221): return the current id and
increment the counter. -/
def next_id (current_id : Nat) : Nat × Nat :=
  (current_id, current_id + 1)

/-- Ids produced by n successive next_id calls from a given counter value. -/
def allocIds : Nat → Nat → List Nat
  | 0, _ => []
  | n + 1, cur =>
    let r := next_id cur
    r.1 :: allocIds n r.2

/-- Exception values of the JsonRpcException class hierarchy
(jrpc.py lines 231-308), one constructor per class. -/
inductive JrpcExc where
  | base (msg : String) (code : Int)
  | parseErrorExc
  | invalidRequestExc
  | methodNotFoundExc (method : String)
  | invalidParamsExc
  | internalErrorExc (msg : String)
  | serverErrorExc (msg : String)
deriving DecidableEq, Repr

/-- The integer code carried by each exception class. -/
def JrpcExc.code : JrpcExc → Int
  | .base _ c => c
  | .parseErrorExc => -32700
  | .invalidRequestExc => -32600
  | .methodNotFoundExc _ => -32601
  | .invalidParamsExc => -32602
  | .internalErrorExc _ => -32603
  | .serverErrorExc _ => -32000

/-- The message carried by each exception class. -/
def JrpcExc.msg : JrpcExc → String
  | .base m _ => m
  | .parseErrorExc => ("Error parsing JSON-RPC message")
  | .invalidRequestExc => ("Invalid JSON-RPC message")
  | .methodNotFoundExc m => ("Method not found: ") ++ m
  | .invalidParamsExc => ("Invalid params")
  | .internalErrorExc m => m
  | .serverErrorExc m => m

/-- Outcome of one evaluation of the body of JsonRpcClient.call's wait loop
(jrpc.py lines 87-93): either the caller's own id is present in `incoming`
and is popped, or the loop raises on a closed transport, or the caller
invokes incoming_lock.wait() — `blocked` — and is parked there until some
thread issues notify_all on incoming_lock. -/
inductive WaitOutcome where
  | blocked
  | closedErr (e : JrpcExc)
  | got (env : JMsg) (rest : List (Int × JMsg))

/-- One evaluation of the wait-loop body of jrpc.py lines 88-93, in the
order the code performs the tests. The program runs this body when the
caller first enters the loop and again each time it is woken from
incoming_lock.wait() by a notify_all; between wake-ups the caller sits
inside wait() and observes nothing (see applyEvent below for the wake-up
condition). -/
def callWaitStep (closed : Bool) (incoming : List (Int × JMsg)) (id : Int) :
    WaitOutcome :=
  match lookupA incoming id with
  | some env => .got env (removeA incoming id)
  | none =>
    if closed then
      .closedErr (.serverErrorExc ("Connection closed before response received"))
    else .blocked

/-- Phase of one caller inside call's wait loop: `run` — about to evaluate
the loop condition (on entry, or just woken from wait()); `parked` —
blocked inside incoming_lock.wait() until some thread issues notify_all on
incoming_lock; `got` — consumed its reply; `failed` — raised. -/
inductive WaiterPhase where
  | run
  | parked
  | got (env : JMsg)
  | failed (e : JrpcExc)
deriving DecidableEq, Repr

/-- A transport-side action affecting a blocked caller: the read loop
storing a reply envelope (jrpc.py lines 192-194), or close (jrpc.py lines
223-229, reached explicitly, on a zero-length read, or on a read error). -/
inductive TransportEvent where
  | storeReply (i : Int) (env : JMsg)
  | closeEvt
deriving DecidableEq, Repr

/-- Which transport actions issue incoming_lock.notify_all(): only the
reply store does (jrpc.py line 194); close() sets closed and closes the
socket but issues no notify on incoming_lock (lines 228-229), and nothing
else in jrpc.py notifies that lock. -/
def notifiesIncomingLock : TransportEvent → Bool
  | .storeReply _ _ => true
  | .closeEvt => false

/-- One evaluation of the wait-loop body for the caller with the given id,
as performed on loop entry and after each wake-up: pop the own-id reply if
present, else raise if closed, else park in incoming_lock.wait(). -/
def waiterEval (closed : Bool) (incoming : List (Int × JMsg)) (id : Int) :
    WaiterPhase × List (Int × JMsg) :=
  match callWaitStep closed incoming id with
  | .got env rest => (.got env, rest)
  | .closedErr e => (.failed e, incoming)
  | .blocked => (.parked, incoming)

/-- The transport state seen by the wait loop, plus one caller of
interest. -/
structure CallSystem where
  closed : Bool
  incoming : List (Int × JMsg)
  phase : WaiterPhase
deriving DecidableEq, Repr

/-- Apply one transport event to the system: perform the event's state
effect (store the envelope under its id as at jrpc.py line 193, or set
closed as at lines 228-229), then wake the parked caller only if the event
issued a notify_all on incoming_lock — in which case the caller re-runs the
loop body; an event that does not notify leaves a parked caller parked. -/
def applyEvent (id : Int) (s : CallSystem) (ev : TransportEvent) :
    CallSystem :=
  let s1 :=
    match ev with
    | .storeReply i env => { s with incoming := insertA s.incoming i env }
    | .closeEvt => { s with closed := true }
  match s1.phase with
  | .parked =>
    if notifiesIncomingLock ev then
      let r := waiterEval s1.closed s1.incoming id
      { s1 with phase := r.1, incoming := r.2 }
    else s1
  | _ => s1

/-- Python truthiness of the popped envelope dict (`if not result`). -/
def msgIsEmpty (m : JMsg) : Bool :=
  m.jsonrpc.isNone && m.id.isNone && m.method.isNone && m.params.isNone &&
    m.result.isNone && m.error.isNone

/-- Interpretation of the popped reply envelope, jrpc.py lines 95-102:
empty dict returns None; an error field raises with that error's message and
code; otherwise a result field is returned; otherwise an invalid-response
server error is raised. -/
def interpretReply (env : JMsg) : Except JrpcExc (Option JValue) :=
  if msgIsEmpty env then .ok none
  else
    match env.error with
    | some (c, m) => .error (.base m c)
    | none =>
      match env.result with
      | some r => .ok (some r)
      | none => .error (.serverErrorExc ("Server sent an invalid response"))

/-- Exceptions escaping validate_query and View.execute: a re-raised
transport exception or the domain InvalidQueryException. -/
inductive ClientExc where
  | rpc (e : JrpcExc)
  | invalidQuery (msg : String)
deriving DecidableEq, Repr

/-- The except-clauses of TriggerwareClient.validate_query
(triggerware_client.py lines 77-84): InternalErrorException and
ServerErrorException are re-raised; any other JsonRpcException is wrapped
into InvalidQueryException carrying only the message. -/
def validate_query_handle (e : JrpcExc) : ClientExc :=
  match e with
  | .internalErrorExc _ => .rpc e
  | .serverErrorExc _ => .rpc e
  | _ => .invalidQuery e.msg

/-- The except-clauses of View.execute (queries.py lines 121-128):
ServerErrorException is re-raised; any other JsonRpcException is wrapped
into InvalidQueryException carrying only the message. -/
def view_execute_handle (e : JrpcExc) : ClientExc :=
  match e with
  | .serverErrorExc _ => .rpc e
  | _ => .invalidQuery e.msg

/-- The batch object inside an execute-query result (`eq_result['batch']`);
`tuples` is `none` when the key is absent. -/
structure BatchField where
  tuples : Option (List JValue) := none
deriving DecidableEq, Repr

/-- The execute-query result dict consumed by ResultSet.__init__. -/
structure EqResult where
  handle : Option Int := none
  signature : Option (List JValue) := none
  batch : Option BatchField := none
deriving DecidableEq, Repr

/-- Fields of a ResultSet instance. `cache_idx` is `none` while the
attribute has never been assigned: result_set.py declares it only as a class
annotation and `__init__` (lines 17-46) never sets it. -/
structure ResultSetState where
  handle : Option Int
  row_limit : Option Int
  timeout : Option Int
  signature : List JValue
  cache : List JValue
  cache_idx : Option Nat
  exhausted : Bool
deriving DecidableEq, Repr

/-- ResultSet.__init__ (result_set.py lines 17-46), with the client's
default_fetch_size and default_timeout passed explicitly. -/
def ResultSet.init (default_fetch_size : Option Int) (default_timeout : Option Int)
    (eq_result : EqResult) (row_limit : Option Int) (timeout : Option Int) :
    ResultSetState :=
  let handle := eq_result.handle
  let rl := match row_limit with
    | some r => some r
    | none => default_fetch_size
  let tm := match timeout with
    | some t => some t
    | none => default_timeout
  let sig := match eq_result.signature with
    | some xs => xs
    | none => []
  match eq_result.batch with
  | some b =>
    match b.tuples with
    | some ts =>
      { handle := handle, row_limit := rl, timeout := tm, signature := sig,
        cache := ts, cache_idx := none, exhausted := handle = none }
    | none =>
      { handle := handle, row_limit := rl, timeout := tm, signature := sig,
        cache := [], cache_idx := none, exhausted := false }
  | none =>
    { handle := handle, row_limit := rl, timeout := tm, signature := sig,
      cache := [], cache_idx := none, exhausted := false }

/-- Outcome of ResultSet.__next__. `attrErr` models the AttributeError
raised when `self.cache_idx` is read before any assignment. -/
inductive NextOutcome where
  | row (v : JValue) (s : ResultSetState)
  | stopIteration (s : ResultSetState)
  | attrErr
deriving DecidableEq, Repr

/-- ResultSet.__next__ (result_set.py lines 56-80). `fetch` is the
`next-resultset-batch` reply's `(tuples, exhausted)` pair; the returned Bool
records whether that network call was issued. -/
def nextRow (fetch : List JValue × Bool) (s : ResultSetState) :
    NextOutcome × Bool :=
  match s.cache_idx with
  | none => (.attrErr, false)
  | some i =>
    if hlt : i < s.cache.length then
      (.row (s.cache.get ⟨i, hlt⟩) { s with cache_idx := some (i + 1) }, false)
    else
      if s.exhausted then (.stopIteration s, false)
      else
        let s1 := { s with cache := fetch.1, cache_idx := some 0,
                           exhausted := fetch.2 }
        match fetch.1 with
        | [] => (.stopIteration s1, true)
        | v :: _ => (.row v { s1 with cache_idx := some 1 }, true)

/-- Fields of a Subscription instance relevant to its state machine
(subscriptions.py): `_active`, `_batch` (as the batch's id) and the client
identity it was registered with. -/
structure SubState where
  active : Bool
  batch : Option Nat
  client : Nat
deriving DecidableEq, Repr

/-- Identity of a BatchSubscription: its own id and its client's id. -/
structure BatchInfo where
  id : Nat
  client : Nat
deriving DecidableEq, Repr

/-- Subscription.__init__ (subscriptions.py lines 38-71) before the
constructor's optional activate/add_to_batch step: inactive, no batch. -/
def Subscription.init (client : Nat) : SubState :=
  { active := false, batch := none, client := client }

/-- Subscription.activate (subscriptions.py lines 73-90). -/
def activate (s : SubState) : Except String SubState :=
  if s.batch.isSome then
    .error ("Cannot activate subscription that is part of a batch.")
  else if s.active then .error ("Subscription is already active.")
  else .ok { s with active := true }

/-- Subscription.deactivate (subscriptions.py lines 92-109). -/
def deactivate (s : SubState) : Except String SubState :=
  if s.batch.isSome then
    .error ("Cannot deactivate a subscription that is part of a batch.")
  else if !s.active then .error ("Subscription is already inactive.")
  else .ok { s with active := false }

/-- Subscription.add_to_batch (subscriptions.py lines 111-135). -/
def add_to_batch (s : SubState) (b : BatchInfo) : Except String SubState :=
  if s.active then .error ("Cannot add active subscription to a batch.")
  else if s.batch.isSome then
    .error ("Subscription is already part of another batch.")
  else if s.client ≠ b.client then
    .error ("Subscription and batch registered with different clients.")
  else .ok { s with batch := some b.id }

/-- Subscription.remove_from_batch (subscriptions.py lines 137-153). -/
def remove_from_batch (s : SubState) : Except String SubState :=
  if s.batch.isNone then .error ("Subscription is not part of a batch.")
  else .ok { s with batch := none }

/-- Subscription states reachable from construction through successful
state-machine operations. -/
inductive SubReachable : SubState → Prop where
  | init (c : Nat) : SubReachable (Subscription.init c)
  | activateStep {s s1 : SubState} :
      SubReachable s → activate s = .ok s1 → SubReachable s1
  | deactivateStep {s s1 : SubState} :
      SubReachable s → deactivate s = .ok s1 → SubReachable s1
  | addStep {s s1 : SubState} (b : BatchInfo) :
      SubReachable s → add_to_batch s b = .ok s1 → SubReachable s1
  | removeStep {s s1 : SubState} :
      SubReachable s → remove_from_batch s = .ok s1 → SubReachable s1

/-- The two JsonRpcClient instances of the shared-attribute scenario. -/
inductive Inst where
  | A
  | B
deriving DecidableEq, Repr

/-- Python attribute state for two JsonRpcClient instances. jrpc.py declares
`methods`, `incoming` and `buffer` as class attributes (lines 35-37);
`add_method`, `remove_method` and the reply store mutate the resolved dict in
place, so they always act on the class dict, while the read loop's
`self.buffer = BytesIO(remaining)` (line 201) rebinds `buffer` as an instance
attribute, recorded in `instBufA`/`instBufB` (`none` = no instance
attribute, resolution falls through to the class attribute). -/
structure PyClients where
  classMethods : List (String × JsonRpcMessageHandler)
  classIncoming : List (Int × JMsg)
  classBuffer : List Char
  instBufA : Option (List Char)
  instBufB : Option (List Char)

/-- Python attribute resolution for `self.buffer`: instance dict first, then
the class attribute. -/
def bufferOf (s : PyClients) : Inst → List Char
  | .A => s.instBufA.getD s.classBuffer
  | .B => s.instBufB.getD s.classBuffer

/-- JsonRpcClient.add_method (jrpc.py lines 120-129) invoked on an instance:
`self.methods[method] = handler` mutates the resolved dict in place, and the
resolved dict is the class dict for every instance. -/
def add_method (s : PyClients) (_inst : Inst) (name : String)
    (h : JsonRpcMessageHandler) : PyClients :=
  { s with classMethods := insertA s.classMethods name h }

/-- JsonRpcClient.remove_method (jrpc.py lines 131-139) invoked on an
instance: `del self.methods[method]` mutates the class dict in place. -/
def remove_method (s : PyClients) (_inst : Inst) (name : String) : PyClients :=
  { s with classMethods := removeA s.classMethods name }

/-- The read loop's buffer append (jrpc.py lines 154-155) on an instance:
`self.buffer.write(data)` mutates whichever object `self.buffer` resolves
to — the instance's own buffer if rebound, the shared class buffer
otherwise. -/
def recvAppend (s : PyClients) (inst : Inst) (data : List Char) : PyClients :=
  match inst with
  | .A =>
    match s.instBufA with
    | some b => { s with instBufA := some (b ++ data) }
    | none => { s with classBuffer := s.classBuffer ++ data }
  | .B =>
    match s.instBufB with
    | some b => { s with instBufB := some (b ++ data) }
    | none => { s with classBuffer := s.classBuffer ++ data }

/-- The read loop's buffer replacement (jrpc.py line 201):
`self.buffer = BytesIO(remaining)` creates an instance attribute. -/
def rebindBuffer (s : PyClients) (inst : Inst) (remaining : List Char) :
    PyClients :=
  match inst with
  | .A => { s with instBufA := some remaining }
  | .B => { s with instBufB := some remaining }

/-- The LoopState an instance's read loop operates on: the resolved buffer
plus the class-level tables. -/
def loopStateOf (s : PyClients) (inst : Inst) : LoopState :=
  { buffer := bufferOf s inst, methods := s.classMethods,
    incoming := s.classIncoming, closed := false, events := [] }

/-- A reply message used in concrete runs, encoded by toyDecode's table. -/
def toyMsg1 : JMsg :=
  { jsonrpc := some ("2.0"), id := some 1, result := some (.atom (.num 7)) }

/-- A second reply message used in concrete runs. -/
def toyMsg2 : JMsg :=
  { jsonrpc := some ("2.0"), id := some 2, result := some (.atom (.num 8)) }

/-- A message carrying a wrong protocol version, used in concrete runs. -/
def toyBadVersion : JMsg :=
  { jsonrpc := some ("1.0"), id := some 3, result := some (.atom (.num 9)) }

/-- Encoding table of a small concrete stand-in for the external JSON
decoder: three three-byte object encodings. -/
def toyTable : List (List Char × JMsg) :=
  [(['{', 'a', '}'], toyMsg1), (['{', 'b', '}'], toyMsg2),
   (['{', 'x', '}'], toyBadVersion)]

/-- Concrete stand-in for `json.JSONDecoder.raw_decode` used to evaluate the
read loop on concrete buffers: decodes a table entry appearing at the start
of the input, returning the message and the exclusive end offset, and fails
otherwise — in particular it fails on every incomplete entry. -/
def toyDecode (s : List Char) : Option (JMsg × Nat) :=
  (toyTable.find? (fun p => p.1.isPrefixOf s)).map (fun p => (p.2, p.1.length))

/-- The handler registered by Subscription.__init__ (subscriptions.py lines
59-62): its execute callback is `lambda _: {}`, returning the empty dict,
and its notify callback forwards the notification payload. -/
def subscriptionHandler : JsonRpcMessageHandler :=
  { execute := fun _ => {}, notify := fun v => v }

/-- A concrete execute-query result: a handle, a signature and an initial
batch of two rows. -/
def sampleEq : EqResult :=
  { handle := some 1, signature := some [.atom (.str ("x"))],
    batch := some { tuples := some [.atom (.num 10), .atom (.num 20)] } }

/-- Two freshly constructed JsonRpcClient instances: no instance attribute
shadows the class-level tables or buffer yet. -/
def twoClients0 : PyClients :=
  { classMethods := [], classIncoming := [], classBuffer := [],
    instBufA := none, instBufB := none }

/-- A successful lookup means the pair is in the list. -/
theorem lookupA_mem {κ β : Type} [DecidableEq κ] :
    ∀ {l : List (κ × β)} {k : κ} {v : β}, lookupA l k = some v → (k, v) ∈ l := by
  intro l
  induction l with
  | nil => intro k v h; simp [lookupA] at h
  | cons p rest ih =>
    intro k v h
    obtain ⟨a, b⟩ := p
    by_cases hk : a = k
    · subst hk
      simp [lookupA] at h
      subst h
      exact List.mem_cons_self _ _
    · simp [lookupA, hk] at h
      exact List.mem_cons_of_mem _ (ih h)

/-- Removing a key removes every binding for it. -/
theorem lookupA_removeA {κ β : Type} [DecidableEq κ] :
    ∀ (l : List (κ × β)) (k : κ), lookupA (removeA l k) k = none := by
  intro l
  induction l with
  | nil => intro k; rfl
  | cons p rest ih =>
    intro k
    by_cases hk : p.1 = k
    · simp [removeA, hk, ih]
    · simp [removeA, lookupA, hk, ih]

/-- Membership after removal implies membership before. -/
theorem mem_removeA {κ β : Type} [DecidableEq κ] :
    ∀ {l : List (κ × β)} {k : κ} {p : κ × β}, p ∈ removeA l k → p ∈ l := by
  intro l
  induction l with
  | nil => intro k p h; simp [removeA] at h
  | cons q rest ih =>
    intro k p h
    by_cases hk : q.1 = k
    · simp [removeA, hk] at h
      exact List.mem_cons_of_mem _ (ih h)
    · simp [removeA, hk] at h
      rcases h with h | h
      · exact h ▸ List.mem_cons_self _ _
      · exact List.mem_cons_of_mem _ (ih h)

/-- The ids of n successive next_id calls starting at counter c. -/
theorem allocIds_eq_range' (n : Nat) : ∀ c, allocIds n c = List.range' c n := by
  induction n with
  | zero => intro c; rfl
  | succ k ih => intro c; simp [allocIds, next_id, List.range'_succ, ih]

/-- The pending-reply invariant: every stored envelope is keyed by its own
id field. -/
def IncomingInv (incoming : List (Int × JMsg)) : Prop :=
  ∀ p ∈ incoming, p.2.id = some p.1

/-- C1: on one client, successive next_id calls starting from the initial
counter 0 return 0, 1, 2, ... — unique and strictly increasing; the read
loop stores each reply envelope under the envelope's own id, and the wait
loop of call unblocks only on the entry whose id equals the caller's id,
removing it from the pending-reply table when consumed, so an id is matched
to at most one waiter. -/
theorem call_ids_unique_and_correlated :
    (∀ n : Nat, allocIds n 0 = List.range n ∧ (allocIds n 0).Nodup ∧
      (allocIds n 0).Pairwise (· < ·)) ∧
    (∀ s m s1, IncomingInv s.incoming → routeMsg s m = some s1 →
      IncomingInv s1.incoming) ∧
    (∀ (closed : Bool) (incoming : List (Int × JMsg)) (id : Int) env rest,
      IncomingInv incoming → callWaitStep closed incoming id = .got env rest →
      env.id = some id ∧ (id, env) ∈ incoming ∧ lookupA rest id = none) := by
  refine ⟨?_, ?_, ?_⟩
  · intro n
    have hr : allocIds n 0 = List.range n := by
      rw [allocIds_eq_range', List.range_eq_range']
    refine ⟨hr, ?_, ?_⟩
    · rw [hr]; exact List.nodup_range n
    · rw [hr]; exact List.pairwise_lt_range n
  · intro s m s1 hinv hroute
    cases hid : m.id with
    | none =>
      cases hm : m.method with
      | none =>
        simp only [routeMsg, hid, hm, Option.some.injEq] at hroute
        subst hroute
        exact hinv
      | some name =>
        cases hl : lookupA s.methods name with
        | none =>
          simp only [routeMsg, hid, hm, hl, Option.some.injEq] at hroute
          subst hroute
          exact hinv
        | some h =>
          cases hp : m.params with
          | none =>
            simp only [routeMsg, hid, hm, hl, hp] at hroute
            exact Option.noConfusion hroute
          | some p =>
            simp only [routeMsg, hid, hm, hl, hp, Option.some.injEq] at hroute
            subst hroute
            exact hinv
    | some i =>
      cases hm : m.method with
      | none =>
        simp only [routeMsg, hid, hm, Option.some.injEq] at hroute
        subst hroute
        intro p hp
        rcases List.mem_cons.mp hp with hp | hp
        · simpa [hp] using hid
        · exact hinv p (mem_removeA hp)
      | some name =>
        cases hl : lookupA s.methods name with
        | none =>
          simp only [routeMsg, hid, hm, hl, Option.some.injEq] at hroute
          subst hroute
          exact hinv
        | some h =>
          cases hp : m.params with
          | none =>
            simp only [routeMsg, hid, hm, hl, hp] at hroute
            exact Option.noConfusion hroute
          | some p =>
            simp only [routeMsg, hid, hm, hl, hp, Option.some.injEq] at hroute
            subst hroute
            exact hinv
  · intro closed incoming id env rest hinv hstep
    unfold callWaitStep at hstep
    cases hl : lookupA incoming id with
    | none =>
      rw [hl] at hstep
      by_cases hc : closed = true <;> simp [hc] at hstep
    | some e =>
      rw [hl] at hstep
      cases hstep
      have hmem : (id, env) ∈ incoming := lookupA_mem hl
      exact ⟨hinv _ hmem, hmem, lookupA_removeA incoming id⟩

/-- C1 witness: a concrete run — three allocated ids are 0, 1, 2; and with
replies for ids 0 and 1 pending (stored under their own ids), the waiter for
id 1 consumes exactly the id-1 envelope and leaves id 1 unmatched after. -/
theorem call_ids_unique_and_correlated_witness :
    allocIds 3 0 = [0, 1, 2] ∧
    (({ id := some 1, result := some (.atom .null) } : JMsg).id = some 1 ∧
      ((1 : Int), ({ id := some 1, result := some (.atom .null) } : JMsg)) ∈
        [((0 : Int), ({ id := some 0 } : JMsg)),
         ((1 : Int), ({ id := some 1, result := some (.atom .null) } : JMsg))] ∧
      lookupA [((0 : Int), ({ id := some 0 } : JMsg))] (1 : Int) = none) := by
  have h := call_ids_unique_and_correlated
  refine ⟨by simpa using (h.1 3).1, ?_⟩
  have h3 := h.2.2 false
    [((0 : Int), ({ id := some 0 } : JMsg)),
     ((1 : Int), ({ id := some 1, result := some (.atom .null) } : JMsg))]
    1 ({ id := some 1, result := some (.atom .null) } : JMsg)
    [((0 : Int), ({ id := some 0 } : JMsg))]
    (by
      intro p hp
      rcases List.mem_cons.mp hp with rfl | hp
      · rfl
      · rcases List.mem_cons.mp hp with rfl | hp
        · rfl
        · cases hp) (by rfl)
  exact h3

/-- C3: the claim fails on the code. close() (jrpc.py lines 223-229) sets
closed and closes the socket but never issues incoming_lock.notify_all(),
and a caller blocked inside incoming_lock.wait() (line 91) is woken only by
the notify_all of the reply-store path (line 194); so closing — explicitly
or via a zero-length read, which does close the transport — leaves an
already-blocked caller parked forever instead of failing it. The loop body,
which runs only on entry or after a wake-up that close never provides, is
what would raise the connection-closed ServerErrorException (code -32000);
a reply store, the one notifying event, does wake a parked caller. -/
theorem close_never_wakes_blocked_caller :
    applyEvent 0 { closed := false, incoming := [], phase := .parked }
      .closeEvt =
      { closed := true, incoming := [], phase := .parked } ∧
    notifiesIncomingLock .closeEvt = false ∧
    (∀ (s : CallSystem) (id : Int), s.phase = .parked →
      (applyEvent id s .closeEvt).phase = .parked) ∧
    applyEvent 0 { closed := false, incoming := [], phase := .parked }
      (.storeReply 0 ({ id := some 0 } : JMsg)) =
      { closed := false, incoming := [],
        phase := .got ({ id := some 0 } : JMsg) } ∧
    waiterEval true [] 0 =
      (.failed
        (.serverErrorExc ("Connection closed before response received")),
        []) ∧
    JrpcExc.code
      (.serverErrorExc ("Connection closed before response received")) =
      -32000 ∧
    (∀ (decode : List Char → Option (JMsg × Nat)) (s : LoopState),
      s.closed = false → feedData decode s [] = close s ∧
      (close s).closed = true) := by
  refine ⟨rfl, rfl, ?_, rfl, rfl, rfl, ?_⟩
  · intro s id hp
    unfold applyEvent
    simp [hp, notifiesIncomingLock]
  · intro decode s hs
    constructor
    · unfold feedData
      rw [hs]
      rfl
    · rfl

/-- C3 witness: a concrete caller (id 5) parked in wait() is still parked
after close runs; a zero-length read on a concrete open transport closes
it. -/
theorem close_never_wakes_blocked_caller_witness :
    (applyEvent 5 { closed := false, incoming := [], phase := .parked }
      .closeEvt).phase = .parked ∧
    feedData (fun _ => none)
      { buffer := [], methods := [], incoming := [], closed := false,
        events := [] } [] =
      close
        { buffer := [], methods := [], incoming := [], closed := false,
          events := [] } := by
  have h := close_never_wakes_blocked_caller
  exact ⟨h.2.2.1 { closed := false, incoming := [], phase := .parked } 5 rfl,
    (h.2.2.2.2.2.2 (fun _ => none)
      { buffer := [], methods := [], incoming := [], closed := false,
        events := [] } rfl).1⟩

/-- C6: interpreting an arrived reply envelope (which always carries its id):
an error field fails the call with exactly that error's code and message; with
no error field, a result field is returned; with neither, the call fails with
the invalid-response server error (code -32000). -/
theorem call_reply_interpretation :
    ∀ (env : JMsg) (i : Int), env.id = some i →
      (∀ c m, env.error = some (c, m) →
        interpretReply env = .error (.base m c) ∧
        JrpcExc.code (.base m c) = c ∧ JrpcExc.msg (.base m c) = m) ∧
      (env.error = none → ∀ r, env.result = some r →
        interpretReply env = .ok (some r)) ∧
      (env.error = none → env.result = none →
        interpretReply env =
          .error (.serverErrorExc ("Server sent an invalid response"))) := by
  intro env i hid
  have hne : msgIsEmpty env = false := by
    unfold msgIsEmpty
    rw [hid]
    simp
  refine ⟨?_, ?_, ?_⟩
  · intro c m herr
    unfold interpretReply
    rw [hne, herr]
    exact ⟨rfl, rfl, rfl⟩
  · intro herr r hres
    unfold interpretReply
    rw [hne, herr, hres]
    rfl
  · intro herr hres
    unfold interpretReply
    rw [hne, herr, hres]
    rfl

/-- C6 witness: concrete envelopes — an error reply with code 17 raises code
17 with its message; a result reply returns the result; an id-only reply
raises the invalid-response error. -/
theorem call_reply_interpretation_witness :
    interpretReply { id := some 4, error := some (17, ("boom")) } =
      .error (.base ("boom") 17) ∧
    interpretReply { id := some 4, result := some (.atom (.num 9)) } =
      .ok (some (.atom (.num 9))) ∧
    interpretReply { id := some 4 } =
      .error (.serverErrorExc ("Server sent an invalid response")) := by
  refine ⟨?_, ?_, ?_⟩
  · exact ((call_reply_interpretation _ 4 rfl).1 17 ("boom") rfl).1
  · exact (call_reply_interpretation _ 4 rfl).2.1 rfl _ rfl
  · exact (call_reply_interpretation { id := some 4 } 4 rfl).2.2 rfl rfl

/-- C8: the subscription state machine is strict — activate fails when
active or a batch member (so a second consecutive activate fails), deactivate
fails unless active and not a batch member, add_to_batch fails when active,
already a member, or on a client mismatch, remove_from_batch fails unless a
member; and in every reachable state, active and member-of-batch never hold
simultaneously. -/
theorem subscription_state_machine_strict :
    (∀ s s1, activate s = .ok s1 → ∃ e, activate s1 = .error e) ∧
    (∀ s, s.active = true ∨ s.batch.isSome = true →
      ∃ e, activate s = .error e) ∧
    (∀ s, s.active = false ∨ s.batch.isSome = true →
      ∃ e, deactivate s = .error e) ∧
    (∀ s b, s.active = true ∨ s.batch.isSome = true ∨ s.client ≠ b.client →
      ∃ e, add_to_batch s b = .error e) ∧
    (∀ s, s.batch = none → ∃ e, remove_from_batch s = .error e) ∧
    (∀ s, SubReachable s → ¬(s.active = true ∧ s.batch.isSome = true)) := by
  refine ⟨?_, ?_, ?_, ?_, ?_, ?_⟩
  · intro s s1 h
    unfold activate at h ⊢
    by_cases hb : s.batch.isSome = true
    · simp [hb] at h
    · simp [hb] at h
      by_cases ha : s.active = true
      · simp [ha] at h
      · simp [ha] at h
        rw [← h]
        simp [hb]
  · intro s hs
    unfold activate
    rcases hs with hs | hs
    · by_cases hb : s.batch.isSome = true
      · simp [hb]
      · simp [hb, hs]
    · simp [hs]
  · intro s hs
    unfold deactivate
    rcases hs with hs | hs
    · by_cases hb : s.batch.isSome = true
      · simp [hb]
      · simp [hb, hs]
    · simp [hs]
  · intro s b hs
    unfold add_to_batch
    rcases hs with hs | hs | hs
    · simp [hs]
    · by_cases ha : s.active = true
      · simp [ha]
      · simp [ha, hs]
    · by_cases ha : s.active = true
      · simp [ha]
      · by_cases hb : s.batch.isSome = true
        · simp [ha, hb]
        · simp [ha, hb, hs]
  · intro s hs
    unfold remove_from_batch
    simp [hs]
  · intro s hreach
    induction hreach with
    | init c => simp [Subscription.init]
    | activateStep hr hok ih =>
      rename_i s0 s1
      unfold activate at hok
      by_cases hb : s0.batch.isSome = true
      · simp [hb] at hok
      · simp [hb] at hok
        by_cases ha : s0.active = true
        · simp [ha] at hok
        · simp [ha] at hok
          rw [← hok]
          simp [hb]
    | deactivateStep hr hok ih =>
      rename_i s0 s1
      unfold deactivate at hok
      by_cases hb : s0.batch.isSome = true
      · simp [hb] at hok
      · simp [hb] at hok
        by_cases ha : s0.active = true
        · simp [ha] at hok
          rw [← hok]
          simp
        · simp [ha] at hok
    | addStep b hr hok ih =>
      rename_i s0 s1
      unfold add_to_batch at hok
      by_cases ha : s0.active = true
      · simp [ha] at hok
      · simp [ha] at hok
        by_cases hb : s0.batch.isSome = true
        · simp [hb] at hok
        · simp [hb] at hok
          by_cases hc : s0.client = b.client
          · simp [hc] at hok
            rw [← hok]
            simp [ha]
          · simp [hc] at hok
    | removeStep hr hok ih =>
      rename_i s0 s1
      unfold remove_from_batch at hok
      by_cases hb : s0.batch.isNone = true
      · simp [hb] at hok
      · simp [hb] at hok
        rw [← hok]
        simp

/-- C8 witness: activating a freshly constructed subscription succeeds and a
second activate fails; adding the now-active subscription to a batch fails;
removing a batchless subscription from a batch fails; the post-activate
state is reachable and not simultaneously active and a batch member. -/
theorem subscription_state_machine_strict_witness :
    (∃ e, activate { active := true, batch := none, client := 0 } =
      .error e) ∧
    (∃ e, add_to_batch { active := true, batch := none, client := 0 }
      { id := 5, client := 0 } = .error e) ∧
    (∃ e, remove_from_batch { active := true, batch := none, client := 0 } =
      .error e) ∧
    ¬(({ active := true, batch := none, client := 0 } : SubState).active = true ∧
      ({ active := true, batch := none, client := 0 } : SubState).batch.isSome = true) := by
  have h := subscription_state_machine_strict
  refine ⟨h.1 (Subscription.init 0) _ (by rfl),
    h.2.2.2.1 _ { id := 5, client := 0 } (Or.inl rfl),
    h.2.2.2.2.1 _ rfl, ?_⟩
  exact h.2.2.2.2.2 _
    (SubReachable.activateStep (SubReachable.init 0) (by rfl))

/-- C9: of the exceptions the transport's call can raise, the locally raised
connection-loss ServerErrorException (code -32000) is re-raised unwrapped by
both View.execute and validate_query, a locally raised InternalErrorException
(code -32603) is re-raised unwrapped by validate_query, and a server error
envelope (base JsonRpcException) is wrapped into InvalidQueryException at
both sites; moreover call itself only ever raises a base JsonRpcException or
a ServerErrorException. -/
theorem domain_error_wrapping :
    (∀ m, validate_query_handle (.serverErrorExc m) = .rpc (.serverErrorExc m) ∧
      view_execute_handle (.serverErrorExc m) = .rpc (.serverErrorExc m) ∧
      JrpcExc.code (.serverErrorExc m) = -32000) ∧
    (∀ m, validate_query_handle (.internalErrorExc m) =
        .rpc (.internalErrorExc m) ∧
      JrpcExc.code (.internalErrorExc m) = -32603) ∧
    (∀ m c, validate_query_handle (.base m c) = .invalidQuery m ∧
      view_execute_handle (.base m c) = .invalidQuery m) ∧
    (∀ env e, interpretReply env = .error e →
      (∃ m c, e = .base m c) ∨ (∃ m, e = .serverErrorExc m)) ∧
    (∀ (closed : Bool) incoming (id : Int) e,
      callWaitStep closed incoming id = .closedErr e →
      ∃ m, e = .serverErrorExc m) := by
  refine ⟨fun m => ⟨rfl, rfl, rfl⟩, fun m => ⟨rfl, rfl⟩,
    fun m c => ⟨rfl, rfl⟩, ?_, ?_⟩
  · intro env e h
    unfold interpretReply at h
    by_cases he : msgIsEmpty env = true
    · simp [he] at h
    · simp [he] at h
      cases herr : env.error with
      | some p =>
        rw [herr] at h
        obtain ⟨c, m⟩ := p
        cases h
        exact Or.inl ⟨m, c, rfl⟩
      | none =>
        rw [herr] at h
        cases hres : env.result with
        | some r => rw [hres] at h; cases h
        | none =>
          rw [hres] at h
          cases h
          exact Or.inr ⟨_, rfl⟩
  · intro closed incoming id e h
    unfold callWaitStep at h
    cases hl : lookupA incoming id with
    | some env => rw [hl] at h; cases h
    | none =>
      rw [hl] at h
      by_cases hc : closed = true
      · simp [hc] at h
        exact ⟨_, h.symm⟩
      · simp [hc] at h

/-- Routing never touches the buffer, the dispatch table or the closed flag,
and only appends to the event log. -/
theorem routeMsg_frame {s : LoopState} {m : JMsg} {s1 : LoopState}
    (h : routeMsg s m = some s1) :
    s1.closed = s.closed ∧ s1.methods = s.methods ∧ s1.buffer = s.buffer := by
  cases hid : m.id with
  | none =>
    cases hm : m.method with
    | none =>
      simp only [routeMsg, hid, hm, Option.some.injEq] at h
      subst h
      exact ⟨rfl, rfl, rfl⟩
    | some name =>
      cases hl : lookupA s.methods name with
      | none =>
        simp only [routeMsg, hid, hm, hl, Option.some.injEq] at h
        subst h
        exact ⟨rfl, rfl, rfl⟩
      | some hh =>
        cases hp : m.params with
        | none =>
          simp only [routeMsg, hid, hm, hl, hp] at h
          exact Option.noConfusion h
        | some p =>
          simp only [routeMsg, hid, hm, hl, hp, Option.some.injEq] at h
          subst h
          exact ⟨rfl, rfl, rfl⟩
  | some i =>
    cases hm : m.method with
    | none =>
      simp only [routeMsg, hid, hm, Option.some.injEq] at h
      subst h
      exact ⟨rfl, rfl, rfl⟩
    | some name =>
      cases hl : lookupA s.methods name with
      | none =>
        simp only [routeMsg, hid, hm, hl, Option.some.injEq] at h
        subst h
        exact ⟨rfl, rfl, rfl⟩
      | some hh =>
        cases hp : m.params with
        | none =>
          simp only [routeMsg, hid, hm, hl, hp] at h
          exact Option.noConfusion h
        | some p =>
          simp only [routeMsg, hid, hm, hl, hp, Option.some.injEq] at h
          subst h
          exact ⟨rfl, rfl, rfl⟩

/-- A continuing decode-loop iteration strictly shrinks the buffer, because
the loop always drops at least pos + 1 ≥ 1 bytes of a nonempty buffer. -/
theorem processOnce_cont_shrink {decode : List Char → Option (JMsg × Nat)}
    (h0 : decode [] = none) {s s1 : LoopState}
    (h : processOnce decode s = .cont s1) :
    s1.buffer.length < s.buffer.length := by
  unfold processOnce at h
  by_cases hc : s.closed = true
  · simp [hc] at h
  · simp only [hc] at h
    cases hdec : decode (s.buffer.drop (leadingWs s.buffer)) with
    | none => simp [hdec] at h
    | some r =>
      obtain ⟨m, pos⟩ := r
      have hbne : s.buffer ≠ [] := by
        intro hb
        rw [hb] at hdec
        simp [h0] at hdec
      simp only [hdec] at h
      by_cases hv : m.jsonrpc = some ("2.0")
      · simp only [hv, if_pos rfl] at h
        cases hr : routeMsg s m with
        | none => simp [hr] at h
        | some s2 =>
          simp only [hr] at h
          cases h
          simp only [List.length_drop]
          have : 0 < s.buffer.length := List.length_pos.mpr hbne
          omega
      · simp [hv] at h

/-- With enough fuel, the fueled loop computes the same result as with the
canonical buffer-length fuel. -/
theorem processAllFuel_irrel {decode : List Char → Option (JMsg × Nat)}
    (h0 : decode [] = none) :
    ∀ (f : Nat) (s : LoopState), s.buffer.length < f →
      processAllFuel decode f s =
        processAllFuel decode (s.buffer.length + 1) s := by
  intro f
  induction f using Nat.strong_induction_on with
  | _ f ih =>
    intro s hf
    cases f with
    | zero => omega
    | succ f1 =>
      cases hpo : processOnce decode s with
      | stop s1 => simp [processAllFuel, hpo]
      | cont s1 =>
        have hsh : s1.buffer.length < s.buffer.length :=
          processOnce_cont_shrink h0 hpo
        have e1 : processAllFuel decode (f1 + 1) s = processAllFuel decode f1 s1 := by
          simp [processAllFuel, hpo]
        have e2 : processAllFuel decode (s.buffer.length + 1) s =
            processAllFuel decode s.buffer.length s1 := by
          simp [processAllFuel, hpo]
        rw [e1, e2, ih f1 (by omega) s1 (by omega),
          ih s.buffer.length (by omega) s1 (by omega)]

/-- A stopping iteration determines the loop's result. -/
theorem processAll_stop {decode : List Char → Option (JMsg × Nat)}
    {s s1 : LoopState} (h : processOnce decode s = .stop s1) :
    processAll decode s = s1 := by
  unfold processAll
  simp [processAllFuel, h]

/-- A continuing iteration unfolds the loop by one step. -/
theorem processAll_cont {decode : List Char → Option (JMsg × Nat)}
    (h0 : decode [] = none) {s s1 : LoopState}
    (h : processOnce decode s = .cont s1) :
    processAll decode s = processAll decode s1 := by
  have hsh : s1.buffer.length < s.buffer.length := processOnce_cont_shrink h0 h
  unfold processAll
  have e1 : processAllFuel decode (s.buffer.length + 1) s =
      processAllFuel decode s.buffer.length s1 := by
    simp [processAllFuel, h]
  rw [e1, processAllFuel_irrel h0 s.buffer.length s1 (by omega)]

/-- C2: framing — a buffer holding two complete whitespace-separated
messages is processed as two independent dispatches (route of the first,
then route of the second) with the buffer fully consumed; and a message
delivered split across several reads leaves the buffer unchanged after each
decode attempt on an incomplete prefix, then is dispatched as exactly one
message once all bytes have arrived. Hypotheses express the decoder contract
of raw_decode at the relevant inputs: a complete message decodes to its
value with its exclusive end offset regardless of trailing bytes, an
incomplete prefix fails. -/
theorem framing_two_messages_and_split
    (decode : List Char → Option (JMsg × Nat)) (h0 : decode [] = none) :
    (∀ (e1 e2 : List Char) (c : Char) (m1 m2 : JMsg) (s s1r s2r : LoopState),
      s.closed = false →
      pyIsSpace c = true →
      leadingWs (e1 ++ c :: e2) = 0 →
      leadingWs e2 = 0 →
      decode (e1 ++ c :: e2) = some (m1, e1.length) →
      decode e2 = some (m2, e2.length) →
      m1.jsonrpc = some ("2.0") →
      m2.jsonrpc = some ("2.0") →
      routeMsg { s with buffer := e1 ++ c :: e2 } m1 = some s1r →
      routeMsg { s1r with buffer := e2 } m2 = some s2r →
      processAll decode { s with buffer := e1 ++ c :: e2 } =
        { s2r with buffer := [] }) ∧
    (∀ (e : List Char) (m : JMsg) (cs : List (List Char)) (s sr : LoopState),
      s.closed = false → s.buffer = [] → cs ≠ [] →
      cs.flatten = e →
      (∀ ck ∈ cs, ck ≠ []) →
      (∀ k, 0 < k → k < cs.length → decode ((cs.take k).flatten) = none) →
      (∀ k, 0 < k → k < cs.length → leadingWs ((cs.take k).flatten) = 0) →
      leadingWs e = 0 →
      decode e = some (m, e.length) →
      m.jsonrpc = some ("2.0") →
      routeMsg { s with buffer := e } m = some sr →
      (∀ k, k < cs.length →
        List.foldl (feedData decode) s (cs.take k) =
          { s with buffer := (cs.take k).flatten }) ∧
      List.foldl (feedData decode) s cs = { sr with buffer := [] }) := by
  constructor
  · intro e1 e2 c m1 m2 s s1r s2r hclosed hsp hw1 hw2 hd1 hd2 hv1 hv2 hr1 hr2
    obtain ⟨sb, sm, si, sc, se⟩ := s
    obtain ⟨rb1, rm1, ri1, rc1, re1⟩ := s1r
    obtain ⟨rb2, rm2, ri2, rc2, re2⟩ := s2r
    dsimp only at hclosed hr1 hr2 ⊢
    subst hclosed
    have hc1 : rc1 = false := by
      have h1 := (routeMsg_frame hr1).1
      dsimp only at h1
      exact h1
    subst hc1
    have hc2 : rc2 = false := by
      have h2 := (routeMsg_frame hr2).1
      dsimp only at h2
      exact h2
    subst hc2
    have hdropB : (e1 ++ c :: e2).drop (e1.length + 1) = e2 := by
      rw [List.append_cons]
      have hlen : (e1 ++ [c]).length = e1.length + 1 := by simp
      rw [← hlen, List.drop_left]
    have hdrop2 : e2.drop (e2.length + 1) = [] :=
      List.drop_eq_nil_of_le (by omega)
    have hpo1 : processOnce decode
        { buffer := e1 ++ c :: e2, methods := sm, incoming := si,
          closed := false, events := se } =
        .cont { buffer := e2, methods := rm1, incoming := ri1,
                closed := false, events := re1 } := by
      unfold processOnce
      simp [hw1, hd1, hv1, hr1, hdropB]
    have hpo2 : processOnce decode
        { buffer := e2, methods := rm1, incoming := ri1,
          closed := false, events := re1 } =
        .cont { buffer := [], methods := rm2, incoming := ri2,
                closed := false, events := re2 } := by
      unfold processOnce
      simp [hw2, hd2, hv2, hr2, hdrop2]
    have hpo3 : processOnce decode
        { buffer := [], methods := rm2, incoming := ri2,
          closed := false, events := re2 } =
        .stop { buffer := [], methods := rm2, incoming := ri2,
                closed := false, events := re2 } := by
      unfold processOnce
      simp [h0, leadingWs]
    rw [processAll_cont h0 hpo1, processAll_cont h0 hpo2, processAll_stop hpo3]
  · intro e m cs s sr hclosed hbuf hcs hflat hne hdk hwk hw hd hv hr
    obtain ⟨sb, sm, si, sc, se⟩ := s
    obtain ⟨rb, rm, ri, rc, re⟩ := sr
    dsimp only at hclosed hbuf hr ⊢
    subst hclosed
    subst hbuf
    have hcr : rc = false := by
      have h1 := (routeMsg_frame hr).1
      dsimp only at h1
      exact h1
    subst hcr
    have hdropE : e.drop (e.length + 1) = [] :=
      List.drop_eq_nil_of_le (by omega)
    have hfin : processAll decode
        { buffer := e, methods := sm, incoming := si,
          closed := false, events := se } =
        { buffer := [], methods := rm, incoming := ri,
          closed := false, events := re } := by
      have hpo1 : processOnce decode
          { buffer := e, methods := sm, incoming := si,
            closed := false, events := se } =
          .cont { buffer := [], methods := rm, incoming := ri,
                  closed := false, events := re } := by
        unfold processOnce
        simp [hw, hd, hv, hr, hdropE]
      have hpo2 : processOnce decode
          { buffer := [], methods := rm, incoming := ri,
            closed := false, events := re } =
          .stop { buffer := [], methods := rm, incoming := ri,
                  closed := false, events := re } := by
        unfold processOnce
        simp [h0, leadingWs]
      rw [processAll_cont h0 hpo1, processAll_stop hpo2]
    have hinv : ∀ k, k < cs.length →
        List.foldl (feedData decode)
          { buffer := [], methods := sm, incoming := si,
            closed := false, events := se } (cs.take k) =
          { buffer := (cs.take k).flatten, methods := sm, incoming := si,
            closed := false, events := se } := by
      intro k
      induction k with
      | zero => intro _; simp
      | succ k ih =>
        intro hk1
        have hk : k < cs.length := by omega
        have hstep := ih hk
        have hgetk : cs[k]? = some cs[k] := List.getElem?_eq_getElem hk
        have htake : cs.take (k + 1) = cs.take k ++ [cs[k]] := by
          rw [List.take_succ, hgetk]
          rfl
        have hckne : cs[k] ≠ [] := hne _ (List.getElem_mem hk)
        have hbk : (cs.take k).flatten ++ cs[k] = (cs.take (k + 1)).flatten := by
          rw [htake, List.flatten_append]
          simp
        have hpo : processOnce decode
            { buffer := (cs.take (k + 1)).flatten, methods := sm,
              incoming := si, closed := false, events := se } =
            .stop { buffer := (cs.take (k + 1)).flatten, methods := sm,
                    incoming := si, closed := false, events := se } := by
          unfold processOnce
          simp [hwk (k + 1) (by omega) hk1, hdk (k + 1) (by omega) hk1]
        have hfd : feedData decode
            { buffer := (cs.take k).flatten, methods := sm, incoming := si,
              closed := false, events := se } cs[k] =
            processAll decode
              { buffer := (cs.take k).flatten ++ cs[k], methods := sm,
                incoming := si, closed := false, events := se } := by
          unfold feedData
          simp [hckne]
        conv_lhs => rw [htake]
        rw [List.foldl_append, hstep]
        simp only [List.foldl_cons, List.foldl_nil]
        rw [hfd, hbk]
        exact processAll_stop hpo
    refine ⟨hinv, ?_⟩
    obtain ⟨n, hn⟩ : ∃ n, cs.length = n + 1 := by
      have hpos : 0 < cs.length := List.length_pos.mpr hcs
      exact ⟨cs.length - 1, by omega⟩
    have hnlt : n < cs.length := by omega
    have hgetn : cs[n]? = some cs[n] := List.getElem?_eq_getElem hnlt
    have hcsfull : cs = cs.take n ++ [cs[n]] := by
      conv_lhs => rw [← List.take_length cs]
      rw [hn, List.take_succ, hgetn]
      rfl
    have hcnne : cs[n] ≠ [] := hne _ (List.getElem_mem hnlt)
    have hbn : (cs.take n).flatten ++ cs[n] = e := by
      rw [← hflat]
      conv_rhs => rw [hcsfull]
      rw [List.flatten_append]
      simp
    have hfd : feedData decode
        { buffer := (cs.take n).flatten, methods := sm, incoming := si,
          closed := false, events := se } cs[n] =
        processAll decode
          { buffer := (cs.take n).flatten ++ cs[n], methods := sm,
            incoming := si, closed := false, events := se } := by
      unfold feedData
      simp [hcnne]
    conv_lhs => rw [hcsfull]
    rw [List.foldl_append, hinv n hnlt]
    simp only [List.foldl_cons, List.foldl_nil]
    rw [hfd, hbn]
    exact hfin

/-- C2 witness: with the concrete decoder, a buffer holding the encodings of
two replies separated by one space dispatches both (both replies stored in
the pending table, in arrival order) and empties the buffer; the same
message delivered in three one-byte reads leaves the first two bytes
buffered with nothing dispatched, then dispatches exactly one message. -/
theorem framing_two_messages_and_split_witness :
    processAll toyDecode
      { buffer := ['{', 'a', '}', ' ', '{', 'b', '}'], methods := [],
        incoming := [], closed := false, events := [] } =
      { buffer := [], methods := [],
        incoming := [(2, toyMsg2), (1, toyMsg1)], closed := false,
        events := [.storedReply 1, .storedReply 2] } ∧
    List.foldl (feedData toyDecode)
      { buffer := [], methods := [], incoming := [], closed := false,
        events := [] } [['{'], ['a']] =
      { buffer := ['{', 'a'], methods := [], incoming := [], closed := false,
        events := [] } ∧
    List.foldl (feedData toyDecode)
      { buffer := [], methods := [], incoming := [], closed := false,
        events := [] } [['{'], ['a'], ['}']] =
      { buffer := [], methods := [], incoming := [(1, toyMsg1)],
        closed := false, events := [.storedReply 1] } := by
  have h := framing_two_messages_and_split toyDecode rfl
  refine ⟨?_, ?_, ?_⟩
  · exact h.1 ['{', 'a', '}'] ['{', 'b', '}'] ' ' toyMsg1 toyMsg2
      { buffer := [], methods := [], incoming := [], closed := false,
        events := [] }
      { buffer := ['{', 'a', '}', ' ', '{', 'b', '}'], methods := [],
        incoming := [(1, toyMsg1)], closed := false,
        events := [.storedReply 1] }
      { buffer := ['{', 'b', '}'], methods := [],
        incoming := [(2, toyMsg2), (1, toyMsg1)], closed := false,
        events := [.storedReply 1, .storedReply 2] }
      rfl (by decide) (by decide) (by decide) (by decide) (by decide)
      rfl rfl rfl rfl
  · have h2 := h.2 ['{', 'a', '}'] toyMsg1 [['{'], ['a'], ['}']]
      { buffer := [], methods := [], incoming := [], closed := false,
        events := [] }
      { buffer := ['{', 'a', '}'], methods := [], incoming := [(1, toyMsg1)],
        closed := false, events := [.storedReply 1] }
      rfl rfl (by decide) (by decide) (by decide)
      (by
        intro k hk0 hkl
        have hk3 : k < 3 := by simpa using hkl
        rcases (by omega : k = 1 ∨ k = 2) with rfl | rfl <;> decide)
      (by
        intro k hk0 hkl
        have hk3 : k < 3 := by simpa using hkl
        rcases (by omega : k = 1 ∨ k = 2) with rfl | rfl <;> decide)
      (by decide) (by decide) rfl rfl
    exact h2.1 2 (by decide)
  · have h2 := h.2 ['{', 'a', '}'] toyMsg1 [['{'], ['a'], ['}']]
      { buffer := [], methods := [], incoming := [], closed := false,
        events := [] }
      { buffer := ['{', 'a', '}'], methods := [], incoming := [(1, toyMsg1)],
        closed := false, events := [.storedReply 1] }
      rfl rfl (by decide) (by decide) (by decide)
      (by
        intro k hk0 hkl
        have hk3 : k < 3 := by simpa using hkl
        rcases (by omega : k = 1 ∨ k = 2) with rfl | rfl <;> decide)
      (by
        intro k hk0 hkl
        have hk3 : k < 3 := by simpa using hkl
        rcases (by omega : k = 1 ∨ k = 2) with rfl | rfl <;> decide)
      (by decide) (by decide) rfl rfl
    exact h2.2

/-- C4 counterexample: a concrete buffer holding a message with protocol
version "1.0" followed by a well-formed message: processing closes the
transport and dispatches nothing — the subsequent message is never parsed,
refuting the claim that the loop keeps running with the transport open. -/
theorem version_mismatch_counterexample :
    (processAll toyDecode
      { buffer := ['{', 'x', '}', ' ', '{', 'a', '}'], methods := [],
        incoming := [], closed := false, events := [] }).closed = true ∧
    (processAll toyDecode
      { buffer := ['{', 'x', '}', ' ', '{', 'a', '}'], methods := [],
        incoming := [], closed := false, events := [] }).events = [] ∧
    (processAll toyDecode
      { buffer := ['{', 'x', '}', ' ', '{', 'a', '}'], methods := [],
        incoming := [], closed := false, events := [] }).incoming = [] := by
  refine ⟨by decide, by decide, by decide⟩

/-- C4 amended: when the read loop decodes a message whose protocol-version
field differs from "2.0" or is absent, the raised protocol error escapes the
decode loop's JSONDecodeError handler and reaches the outer catch-all, which
closes the transport; the loop terminates without dispatching that message
or any later one (events and buffer are left unchanged, closed becomes
true). -/
theorem version_mismatch_closes_loop
    (decode : List Char → Option (JMsg × Nat)) (s : LoopState) (m : JMsg)
    (pos : Nat) (hclosed : s.closed = false)
    (hd : decode (s.buffer.drop (leadingWs s.buffer)) = some (m, pos))
    (hv : m.jsonrpc ≠ some ("2.0")) :
    processAll decode s = { s with closed := true } := by
  have hpo : processOnce decode s = .stop { s with closed := true } := by
    unfold processOnce
    simp [hclosed, hd, hv]
  exact processAll_stop hpo

/-- C4 amended witness: the concrete bad-version buffer instantiates the
amended theorem. -/
theorem version_mismatch_closes_loop_witness :
    processAll toyDecode
      { buffer := ['{', 'x', '}'], methods := [], incoming := [],
        closed := false, events := [] } =
      { buffer := ['{', 'x', '}'], methods := [], incoming := [],
        closed := true, events := [] } := by
  exact version_mismatch_closes_loop toyDecode
    { buffer := ['{', 'x', '}'], methods := [], incoming := [],
      closed := false, events := [] }
    toyBadVersion 3 rfl (by decide) (by decide)

/-- C5 counterexample: with the handler that subscriptions.py registers
(execute = `lambda _: {}`), an inbound call with id 7 for the registered
name "sub0" is answered by sending the handler's return value — the empty
object — which carries no id at all, refuting the claim that the response
carries the request's id. -/
theorem registered_call_reply_counterexample :
    routeMsg
      { buffer := [], methods := [(("sub0"), subscriptionHandler)],
        incoming := [], closed := false, events := [] }
      { jsonrpc := some ("2.0"), id := some 7, method := some ("sub0"),
        params := some (.atom .null) } =
      some
        { buffer := [], methods := [(("sub0"), subscriptionHandler)],
          incoming := [], closed := false, events := [.sent {}] } ∧
    ({} : JMsg).id = none := by
  exact ⟨rfl, rfl⟩

/-- C5 amended: an inbound call for a registered method is answered by
sending the handler's execute return value verbatim (it carries the request
id only if the handler put one there; the handlers this repository registers
return an empty object with no id); an inbound call for an unregistered
method is answered with an error response carrying code -32601 and the
request's id; an inbound notification for an unregistered method produces no
output and no error. -/
theorem inbound_dispatch_behavior :
    (∀ (s : LoopState) (m : JMsg) (i : Int) (name : String)
        (h : JsonRpcMessageHandler) (p : JValue),
      m.id = some i → m.method = some name → m.params = some p →
      lookupA s.methods name = some h →
      routeMsg s m =
        some { s with events := s.events ++ [.sent (h.execute p)] }) ∧
    (∀ (s : LoopState) (m : JMsg) (i : Int) (name : String),
      m.id = some i → m.method = some name →
      lookupA s.methods name = none →
      routeMsg s m =
        some { s with
               events := s.events ++ [.sent (methodNotFoundResponse i name)] } ∧
      (methodNotFoundResponse i name).id = some i ∧
      (methodNotFoundResponse i name).error =
        some (-32601, ("Method ") ++ name ++ (" not found"))) ∧
    (∀ (s : LoopState) (m : JMsg) (name : String),
      m.id = none → m.method = some name →
      lookupA s.methods name = none →
      routeMsg s m = some s) := by
  refine ⟨?_, ?_, ?_⟩
  · intro s m i name h p hid hm hp hl
    simp only [routeMsg, hid, hm, hp, hl]
  · intro s m i name hid hm hl
    refine ⟨?_, rfl, rfl⟩
    simp only [routeMsg, hid, hm, hl]
  · intro s m name hid hm hl
    simp only [routeMsg, hid, hm, hl]

/-- C5 amended witness: a registered call is answered with the handler's
empty object; an unregistered call with id 9 is answered with the -32601
error response carrying id 9; an unregistered notification changes
nothing. -/
theorem inbound_dispatch_behavior_witness :
    routeMsg
      { buffer := [], methods := [(("sub0"), subscriptionHandler)],
        incoming := [], closed := false, events := [] }
      { jsonrpc := some ("2.0"), id := some 3, method := some ("sub0"),
        params := some (.atom (.num 5)) } =
      some
        { buffer := [], methods := [(("sub0"), subscriptionHandler)],
          incoming := [], closed := false, events := [.sent {}] } ∧
    routeMsg
      { buffer := [], methods := [], incoming := [], closed := false,
        events := [] }
      { jsonrpc := some ("2.0"), id := some 9, method := some ("nope"),
        params := some (.atom .null) } =
      some
        { buffer := [], methods := [], incoming := [], closed := false,
          events := [.sent (methodNotFoundResponse 9 ("nope"))] } ∧
    routeMsg
      { buffer := [], methods := [], incoming := [], closed := false,
        events := [] }
      { jsonrpc := some ("2.0"), method := some ("nope"),
        params := some (.atom .null) } =
      some
        { buffer := [], methods := [], incoming := [], closed := false,
          events := [] } := by
  have h := inbound_dispatch_behavior
  refine ⟨?_, ?_, ?_⟩
  · exact h.1
      { buffer := [], methods := [(("sub0"), subscriptionHandler)],
        incoming := [], closed := false, events := [] }
      { jsonrpc := some ("2.0"), id := some 3, method := some ("sub0"),
        params := some (.atom (.num 5)) }
      3 ("sub0") subscriptionHandler (.atom (.num 5)) rfl rfl rfl rfl
  · exact (h.2.1
      { buffer := [], methods := [], incoming := [], closed := false,
        events := [] }
      { jsonrpc := some ("2.0"), id := some 9, method := some ("nope"),
        params := some (.atom .null) }
      9 ("nope") rfl rfl rfl).1
  · exact h.2.2
      { buffer := [], methods := [], incoming := [], closed := false,
        events := [] }
      { jsonrpc := some ("2.0"), method := some ("nope"),
        params := some (.atom .null) }
      ("nope") rfl rfl rfl

/-- C7: ResultSet.__init__ stores the initial batch and a handle but never
assigns `cache_idx` (it exists only as a class annotation), so the very
first `next(resultset)` reads the missing attribute and raises
AttributeError without returning the cached row and without issuing any
network call — the claimed cached-row behavior never gets to run. -/
theorem resultset_first_next_attribute_error :
    (ResultSet.init none none sampleEq none none).cache =
      [.atom (.num 10), .atom (.num 20)] ∧
    (ResultSet.init none none sampleEq none none).exhausted = false ∧
    (ResultSet.init none none sampleEq none none).cache_idx = none ∧
    nextRow ([], true) (ResultSet.init none none sampleEq none none) =
      (.attrErr, false) := by
  refine ⟨rfl, rfl, rfl, rfl⟩

/-- C10 counterexample: start from two fresh instances; after instance B's
read loop consumes a message (executing `self.buffer = BytesIO(remaining)`),
bytes received by instance A land in the class buffer while B reads its own
instance buffer — the two instances no longer see one shared receive
buffer, refuting the claim that the buffer is class-level shared state. -/
theorem shared_buffer_counterexample :
    bufferOf (recvAppend (rebindBuffer twoClients0 .B []) .A ['x']) .A =
      ['x'] ∧
    bufferOf (recvAppend (rebindBuffer twoClients0 .B []) .A ['x']) .B = [] ∧
    bufferOf (recvAppend (rebindBuffer twoClients0 .B []) .A ['x']) .A ≠
      bufferOf (recvAppend (rebindBuffer twoClients0 .B []) .A ['x']) .B := by
  refine ⟨rfl, rfl, by decide⟩

/-- C10 amended: the dispatch table and the pending-reply table are
class-level dicts mutated in place, hence shared by all instances —
add_method through instance A registers the handler for B's receive loop,
which dispatches inbound calls for that name to A's handler, and
remove_method through either instance unregisters the name for all; the
receive buffer starts out class-level too, and is seen identically by both
instances only while neither read loop has rebound it. -/
theorem class_level_state_sharing :
    (∀ (s : PyClients) (name : String) (h : JsonRpcMessageHandler),
      lookupA (add_method s .A name h).classMethods name = some h) ∧
    (∀ (s : PyClients) (name : String) (h : JsonRpcMessageHandler)
        (m : JMsg) (i : Int) (p : JValue),
      m.id = some i → m.method = some name → m.params = some p →
      routeMsg (loopStateOf (add_method s .A name h) .B) m =
        some { loopStateOf (add_method s .A name h) .B with
               events := [.sent (h.execute p)] }) ∧
    (∀ (s : PyClients) (name : String) (h : JsonRpcMessageHandler)
        (i1 i2 : Inst),
      lookupA (remove_method (add_method s i1 name h) i2 name).classMethods
        name = none) ∧
    (∀ s : PyClients, (loopStateOf s .A).methods = (loopStateOf s .B).methods ∧
      (loopStateOf s .A).incoming = (loopStateOf s .B).incoming) ∧
    (∀ (s : PyClients) (i1 i2 : Inst), s.instBufA = none → s.instBufB = none →
      bufferOf s i1 = bufferOf s i2) := by
  refine ⟨?_, ?_, ?_, ?_, ?_⟩
  · intro s name h
    simp [add_method, insertA, lookupA]
  · intro s name h m i p hid hm hp
    have hl : lookupA (loopStateOf (add_method s .A name h) .B).methods name =
        some h := by
      simp [loopStateOf, add_method, insertA, lookupA]
    simp only [routeMsg, hid, hm, hp, hl]
    rfl
  · intro s name h i1 i2
    simp [remove_method, add_method, insertA]
    exact lookupA_removeA _ name
  · intro s
    exact ⟨rfl, rfl⟩
  · intro s i1 i2 hA hB
    cases i1 <;> cases i2 <;> simp [bufferOf, hA, hB]

/-- C10 amended witness: after A registers "sub0", B's loop dispatches an
inbound call for "sub0" to that handler; after B then removes it, the name
resolves for no instance; two fresh instances read the same (class) buffer. -/
theorem class_level_state_sharing_witness :
    lookupA (add_method twoClients0 .A ("sub0")
      subscriptionHandler).classMethods ("sub0") = some subscriptionHandler ∧
    routeMsg (loopStateOf (add_method twoClients0 .A ("sub0")
        subscriptionHandler) .B)
      { jsonrpc := some ("2.0"), id := some 7, method := some ("sub0"),
        params := some (.atom .null) } =
      some { loopStateOf (add_method twoClients0 .A ("sub0")
               subscriptionHandler) .B with
             events := [.sent (subscriptionHandler.execute (.atom .null))] } ∧
    lookupA (remove_method (add_method twoClients0 .A ("sub0")
      subscriptionHandler) .B ("sub0")).classMethods ("sub0") = none ∧
    bufferOf twoClients0 .A = bufferOf twoClients0 .B := by
  have h := class_level_state_sharing
  refine ⟨h.1 twoClients0 ("sub0") subscriptionHandler, ?_, ?_, ?_⟩
  · exact h.2.1 twoClients0 ("sub0") subscriptionHandler
      { jsonrpc := some ("2.0"), id := some 7, method := some ("sub0"),
        params := some (.atom .null) }
      7 (.atom .null) rfl rfl rfl
  · exact h.2.2.1 twoClients0 ("sub0") subscriptionHandler .B .B
  · exact h.2.2.2.2 twoClients0 .A .B rfl rfl

/-- C9 witness: the connection-loss error is re-raised unwrapped at both
sites, the internal error is re-raised by validate_query, and a concrete
server error envelope with code -32001 is wrapped into
InvalidQueryException at both sites. -/
theorem domain_error_wrapping_witness :
    validate_query_handle (.serverErrorExc ("gone")) =
      .rpc (.serverErrorExc ("gone")) ∧
    view_execute_handle (.serverErrorExc ("gone")) =
      .rpc (.serverErrorExc ("gone")) ∧
    validate_query_handle (.internalErrorExc ("oops")) =
      .rpc (.internalErrorExc ("oops")) ∧
    validate_query_handle (.base ("bad query") (-32001)) =
      .invalidQuery ("bad query") ∧
    view_execute_handle (.base ("bad query") (-32001)) =
      .invalidQuery ("bad query") := by
  have h := domain_error_wrapping
  exact ⟨(h.1 ("gone")).1, (h.1 ("gone")).2.1, (h.2.1 ("oops")).1,
    (h.2.2.1 ("bad query") (-32001)).1, (h.2.2.1 ("bad query") (-32001)).2⟩

end Tw
